import Mathlib

/-!
Verification of the answer-reconciliation and grading-orchestration pipeline of
the startup-aid repository.

The embedded code lives in `src/startupaid/streamlit_app.py` (functions
`merge_ocr_results`, `prepare_grading_data`, and the grading loop plus score
display in `grading_page`) and `src/startupaid/grader.py` (the result-shaping
tail of `grade_answer`).

Python dictionaries with string keys are modelled as insertion-ordered
association lists (`List (String × String)`), loosely-typed JSON records as
structures with `Option` fields (a `none` field models an absent key), numbers
as `ℚ`, and a raising evaluator call as `Except String`.
-/

namespace StartupAid

/-- Python `str.lower()` as used on question labels: per-character ASCII case
folding.  (Defined structurally over the character list so that concrete
instances compute; `String.toLower` itself is defined by well-founded
recursion and does not reduce.) -/
def pyLower (s : String) : String := String.mk (s.data.map Char.toLower)

/-- One per-question record of a page's OCR output, as consumed by
`merge_ocr_results` (streamlit_app.py lines 25-30).  An absent key is `none`;
`question_number` holds the already `str(...)`-converted value (the code
converts with `str` right after reading). -/
structure OcrItem where
  question_number : Option String
  answer : Option String
deriving DecidableEq, Repr

/-- Python `dict` lookup `m.get(k)` on an insertion-ordered association list. -/
def getA (m : List (String × String)) (k : String) : Option String :=
  match m with
  | [] => none
  | (k2, v) :: rest => if k2 = k then some v else getA rest k

/-- Python `dict` assignment `m[k] = v`: an existing key keeps its position and
gets the new value, a new key is appended at the end. -/
def setA (m : List (String × String)) (k v : String) : List (String × String) :=
  match m with
  | [] => [(k, v)]
  | (k2, v2) :: rest => if k2 = k then (k, v) :: rest else (k2, v2) :: setA rest k v

/-- The loop state of `merge_ocr_results`: the `merged_answers` dict and the
`last_question` variable (streamlit_app.py lines 17-18). -/
structure MergeState where
  merged_answers : List (String × String)
  last_question : Option String
deriving DecidableEq, Repr

/-- The `else` branch of the per-item step (streamlit_app.py lines 36-44):
record the label as `last_question`, then append to an existing entry with a
blank-line separator or create a new entry. -/
def mergeNewLabel (s : MergeState) (question_num answer : String) : MergeState :=
  { last_question := some question_num
    merged_answers :=
      match getA s.merged_answers question_num with
      | some prev => setA s.merged_answers question_num (prev ++ "\n\n" ++ answer)
      | none => s.merged_answers ++ [(question_num, answer)] }

/-- The body of the inner loop of `merge_ocr_results` (streamlit_app.py lines
25-44).  The Python condition is
`question_num.lower() == "contd" and last_question is not None`; when the
label lowercases to "contd" but no label has been seen yet, control falls to
the same `else` branch as an ordinary label. -/
def mergeItem (s : MergeState) (item : OcrItem) : MergeState :=
  let question_num := item.question_number.getD "Unknown"
  let answer := item.answer.getD "No answer extracted"
  if pyLower question_num = "contd" then
    match s.last_question with
    | some last_question =>
        let prev := (getA s.merged_answers last_question).getD ""
        { s with merged_answers := setA s.merged_answers last_question (prev ++ "\n\n" ++ answer) }
    | none => mergeNewLabel s question_num answer
  else mergeNewLabel s question_num answer

/-- One iteration of the outer loop of `merge_ocr_results` (streamlit_app.py
lines 21-23): a page whose OCR payload is not a list (`none` here) is skipped
by the `isinstance` guard. -/
def mergePage (s : MergeState) (page : Option (List OcrItem)) : MergeState :=
  match page with
  | none => s
  | some items => items.foldl mergeItem s

/-- `merge_ocr_results` (streamlit_app.py lines 11-46): fold all pages in
order starting from the empty dict and undefined `last_question`, and return
the merged dict. -/
def merge_ocr_results (all_results : List (Option (List OcrItem))) : List (String × String) :=
  (all_results.foldl mergePage { merged_answers := [], last_question := none }).merged_answers

/-- One record of the extracted question paper, as consumed by
`prepare_grading_data` (streamlit_app.py lines 348-365).  `question_number`
holds the `str(...)`-converted value when the key is present; `marks` is the
numeric marks value when present. -/
structure RawQuestion where
  question_number : Option String
  question : Option String
  marks : Option ℚ
deriving DecidableEq, Repr

/-- One record of the extracted grading scheme, as consumed by the
`gs_lookup` dict comprehension (streamlit_app.py line 342). -/
structure RawSchemeEntry where
  question_number : Option String
  grading_scheme : Option String
deriving DecidableEq, Repr

/-- The `gs_lookup` dict comprehension (streamlit_app.py line 342):
`str(item.get("question_number"))` — an absent key reads as Python `None`,
whose `str` is the literal "None" — maps to `item.get("grading_scheme", "")`;
a duplicate key is overwritten by the later entry, keeping its position. -/
def gs_lookup (grading_scheme : List RawSchemeEntry) : List (String × String) :=
  grading_scheme.foldl
    (fun m item => setA m (item.question_number.getD "None") (item.grading_scheme.getD "")) []

/-- The `question_data` dict built per question (streamlit_app.py lines
362-370). -/
structure GradingRequest where
  question_num : String
  question : String
  marks : ℚ
  student_answer : String
  grading_scheme : String
  relevant_lecture_text : String
  professor_prompt : String
deriving DecidableEq, Repr

/-- The body of the per-question loop of `prepare_grading_data`
(streamlit_app.py lines 348-372): `q_num = str(question.get
("question_number", ""))`; a falsy (empty) `q_num` is skipped (`continue`,
giving `none` here); otherwise the student answer and grading scheme are
looked up by exact label with empty-string defaults, `marks` defaults to 5,
and `relevant_lecture_text` is the empty string. -/
def prepare_question (gsl student_answers : List (String × String))
    (professor_prompt : String) (question : RawQuestion) : Option GradingRequest :=
  let q_num := question.question_number.getD ""
  if q_num = "" then none
  else some
    { question_num := q_num
      question := question.question.getD ""
      marks := question.marks.getD 5
      student_answer := (getA student_answers q_num).getD ""
      grading_scheme := (getA gsl q_num).getD ""
      relevant_lecture_text := ""
      professor_prompt := professor_prompt }

/-- `prepare_grading_data` (streamlit_app.py lines 320-374), restricted to its
pure core: the session-state presence/type guards at lines 324-336 are the
host's concern; given the three extracted inputs and the notes, the function
is the per-question loop, appending one request per non-skipped question. -/
def prepare_grading_data (question_paper : List RawQuestion)
    (grading_scheme : List RawSchemeEntry) (student_answers : List (String × String))
    (professor_prompt : String) : List GradingRequest :=
  question_paper.filterMap
    (prepare_question (gs_lookup grading_scheme) student_answers professor_prompt)

/-- The JSON payload returned by one evaluator call, after `grade_answer`
parsed it (grader.py lines 84-88).  The prompt's schema has keys
`question_num`, `marks_awarded`, `explanation`; the parse-failure fallback
produces keys `error` and `raw_response`.  Absent keys are `none`. -/
structure GradeResponse where
  question_num : Option String := none
  marks_awarded : Option ℚ := none
  explanation : Option String := none
  error : Option String := none
  raw_response : Option String := none
deriving DecidableEq, Repr

/-- The result-shaping tail of `grade_answer` (grader.py lines 84-88): return
the parsed JSON payload when `json.loads` succeeds, else the fallback record
with `error` = "Failed to parse grading results" and the raw response text. -/
def grade_answer_result (parsed : Option GradeResponse) (response_text : String) : GradeResponse :=
  match parsed with
  | some r => r
  | none => { error := some "Failed to parse grading results", raw_response := some response_text }

/-- The record shown per question: the keys of `question_data` merged with
the keys of the grading result (streamlit_app.py lines 402-405 and 410-415).
Response keys are `Option`s; an absent response key leaves the request's
value (for `question_num`) or stays absent (for the result-only keys). -/
structure DisplayResult where
  question_num : String
  question : String
  marks : ℚ
  student_answer : String
  grading_scheme : String
  relevant_lecture_text : String
  professor_prompt : String
  marks_awarded : Option ℚ
  explanation : Option String
  error : Option String
  raw_response : Option String
deriving DecidableEq, Repr

/-- The Python dict merge `display_data = {**question_data, **grading_result}`
(streamlit_app.py lines 402-405): every key of the grading result overwrites
the same key of the question data; in particular a `question_num` echoed by
the evaluator replaces the request's own. -/
def display_data (question_data : GradingRequest) (grading_result : GradeResponse) : DisplayResult :=
  { question_num := grading_result.question_num.getD question_data.question_num
    question := question_data.question
    marks := question_data.marks
    student_answer := question_data.student_answer
    grading_scheme := question_data.grading_scheme
    relevant_lecture_text := question_data.relevant_lecture_text
    professor_prompt := question_data.professor_prompt
    marks_awarded := grading_result.marks_awarded
    explanation := grading_result.explanation
    error := grading_result.error
    raw_response := grading_result.raw_response }

/-- One iteration of the grading loop of `grading_page` (streamlit_app.py
lines 396-415): call `grade_answer`; on success append the merged display
record; on an exception append the question data plus
`error = str(e)`, `marks_awarded = 0`, `explanation = "Error during grading"`.
A raising call is modelled as `Except.error` with the exception text. -/
def grade_step (evaluate : GradingRequest → Except String GradeResponse)
    (question_data : GradingRequest) : DisplayResult :=
  match evaluate question_data with
  | Except.ok grading_result => display_data question_data grading_result
  | Except.error e =>
      { question_num := question_data.question_num
        question := question_data.question
        marks := question_data.marks
        student_answer := question_data.student_answer
        grading_scheme := question_data.grading_scheme
        relevant_lecture_text := question_data.relevant_lecture_text
        professor_prompt := question_data.professor_prompt
        marks_awarded := some 0
        explanation := some "Error during grading"
        error := some e
        raw_response := none }

/-- The grading loop of `grading_page` (streamlit_app.py lines 390-421): one
result appended per request, in order.  The progress-bar update is a display
concern carrying no data. -/
def grading_results (evaluate : GradingRequest → Except String GradeResponse)
    (grading_data : List GradingRequest) : List DisplayResult :=
  grading_data.map (grade_step evaluate)

/-- `sum(result.get('marks_awarded', 0) for result in results)`
(streamlit_app.py line 429). -/
def total_marks_awarded (results : List DisplayResult) : ℚ :=
  (results.map (fun r => r.marks_awarded.getD 0)).sum

/-- `sum(result.get('marks', 0) for result in results)` (streamlit_app.py
line 430); the `marks` key is always present in a display record. -/
def total_possible_marks (results : List DisplayResult) : ℚ :=
  (results.map (fun r => r.marks)).sum

/-- The score shown in the header (streamlit_app.py line 432):
`(awarded/possible*100) if possible else 0` — the Python truthiness test on
the possible total is a comparison with zero. -/
def percentage (results : List DisplayResult) : ℚ :=
  if total_possible_marks results ≠ 0 then
    total_marks_awarded results / total_possible_marks results * 100
  else 0

end StartupAid

namespace StartupAid

/-- C2: For the single-page fragment list [("1","a"),("Contd","b"),("2","c")],
merging yields the mapping with "1" bound to "a\n\nb" (continuation appended
with a blank-line separator) and "2" bound to "c". -/
theorem C2_merge_single_page :
    merge_ocr_results
      [some [⟨some "1", some "a"⟩, ⟨some "Contd", some "b"⟩, ⟨some "2", some "c"⟩]] =
      [("1", "a\n\nb"), ("2", "c")] := by
  decide

/-- C3 counterexample: a continuation-marker fragment arriving before any real
label is NOT dropped — the returned mapping does contain an entry for the
continuation marker itself, holding that fragment's text. -/
theorem C3_counterexample :
    merge_ocr_results [some [⟨some "Contd", some "b"⟩]] = [("Contd", "b")] ∧
      getA (merge_ocr_results [some [⟨some "Contd", some "b"⟩]]) "Contd" = some "b" := by
  decide

/-- C3 amended: a continuation-marker fragment seen while `last_question` is
still undefined falls into the ordinary-label branch: an entry keyed by the
marker's literal text is created with the fragment's text, the marker becomes
the last-seen label, and no error is raised. -/
theorem C3_leading_contd_treated_as_label (c a : String) (h : pyLower c = "contd") :
    mergeItem { merged_answers := [], last_question := none } ⟨some c, some a⟩ =
      { merged_answers := [(c, a)], last_question := some c } := by
  simp [mergeItem, mergeNewLabel, getA, h]

/-- Witness for C3 amended at the concrete marker "Contd". -/
theorem C3_leading_contd_witness :
    mergeItem { merged_answers := [], last_question := none } ⟨some "Contd", some "b"⟩ =
      { merged_answers := [("Contd", "b")], last_question := some "Contd" } :=
  C3_leading_contd_treated_as_label "Contd" "b" (by decide)

/-- C7: when a label recurs on a later page with an unrelated label in
between, both occurrences are concatenated under the one label in encounter
order with a blank-line separator, and no second entry is created. -/
theorem C7_label_resumes_after_unrelated (l m a b c : String)
    (hl : pyLower l ≠ "contd") (hm : pyLower m ≠ "contd") (hlm : l ≠ m) :
    merge_ocr_results
      [some [⟨some l, some a⟩], some [⟨some m, some b⟩], some [⟨some l, some c⟩]] =
      [(l, a ++ "\n\n" ++ c), (m, b)] := by
  simp [merge_ocr_results, mergePage, mergeItem, mergeNewLabel, getA, setA, hl, hm, hlm]

/-- Witness for C7 at labels "1", "2". -/
theorem C7_witness :
    merge_ocr_results
      [some [⟨some "1", some "a"⟩], some [⟨some "2", some "b"⟩], some [⟨some "1", some "c"⟩]] =
      [("1", "a\n\nc"), ("2", "b")] :=
  C7_label_resumes_after_unrelated "1" "2" "a" "b" "c" (by decide) (by decide) (by decide)

/-- C10: a fragment record with no question-number key is attributed to the
literal label "Unknown", and one with no answer key contributes the literal
text "No answer extracted"; both sentinels go through `mergeItem` exactly as
if they were genuine OCR data, and they enter the merged mapping. -/
theorem C10_missing_field_sentinels :
    (∀ (s : MergeState) (a : Option String),
        mergeItem s ⟨none, a⟩ = mergeItem s ⟨some "Unknown", a⟩) ∧
    (∀ (s : MergeState) (q : Option String),
        mergeItem s ⟨q, none⟩ = mergeItem s ⟨q, some "No answer extracted"⟩) ∧
    merge_ocr_results [some [⟨none, none⟩]] = [("Unknown", "No answer extracted")] :=
  ⟨fun _ _ => rfl, fun _ _ => rfl, by decide⟩

/-- A question whose (stringified, default-empty) number is nonempty is never
skipped: `prepare_question` returns the assembled request. -/
theorem prepare_question_eq_some (gsl ans : List (String × String)) (notes : String)
    (q : RawQuestion) (h : q.question_number.getD "" ≠ "") :
    prepare_question gsl ans notes q = some
      { question_num := q.question_number.getD ""
        question := q.question.getD ""
        marks := q.marks.getD 5
        student_answer := (getA ans (q.question_number.getD "")).getD ""
        grading_scheme := (getA gsl (q.question_number.getD "")).getD ""
        relevant_lecture_text := ""
        professor_prompt := notes } := by
  simp [prepare_question, h]

/-- When every question number is present and nonempty, the assembled
requests carry exactly the questions' marks (with the fallback 5), in order. -/
theorem prepare_grading_data_marks (gs : List RawSchemeEntry)
    (ans : List (String × String)) (notes : String) :
    ∀ qp : List RawQuestion, (∀ q ∈ qp, q.question_number.getD "" ≠ "") →
      (prepare_grading_data qp gs ans notes).map GradingRequest.marks =
        qp.map (fun q => q.marks.getD 5) := by
  intro qp
  induction qp with
  | nil => intro _; rfl
  | cons q qs ih =>
    intro h
    have hq : q.question_number.getD "" ≠ "" := h q (by simp)
    rw [prepare_grading_data, List.filterMap_cons,
        prepare_question_eq_some _ _ _ _ hq]
    simp only [List.map_cons]
    have := ih (fun x hx => h x (by simp [hx]))
    rw [prepare_grading_data] at this
    rw [this]

/-- When every question number is present and nonempty, assembly is 1:1: one
request per question. -/
theorem prepare_grading_data_length (qp : List RawQuestion) (gs : List RawSchemeEntry)
    (ans : List (String × String)) (notes : String)
    (h : ∀ q ∈ qp, q.question_number.getD "" ≠ "") :
    (prepare_grading_data qp gs ans notes).length = qp.length := by
  have hm := prepare_grading_data_marks gs ans notes qp h
  calc (prepare_grading_data qp gs ans notes).length
      = ((prepare_grading_data qp gs ans notes).map GradingRequest.marks).length :=
        (List.length_map _ _).symm
    _ = (qp.map (fun q => q.marks.getD 5)).length := by rw [hm]
    _ = qp.length := List.length_map _ _

/-- Grading never changes the `marks` key: both the success merge and the
failure substitution keep the request's own marks. -/
theorem grade_step_marks (f : GradingRequest → Except String GradeResponse)
    (q : GradingRequest) : (grade_step f q).marks = q.marks := by
  cases hq : f q <;> simp [grade_step, hq, display_data]

/-- Summing the `marks` key over the collected results equals summing it over
the requests. -/
theorem total_possible_marks_grading (f : GradingRequest → Except String GradeResponse)
    (reqs : List GradingRequest) :
    total_possible_marks (grading_results f reqs) = (reqs.map GradingRequest.marks).sum := by
  unfold total_possible_marks grading_results
  induction reqs with
  | nil => rfl
  | cons q qs ih => simp only [List.map_cons, List.map_map, List.sum_cons, grade_step_marks] at ih ⊢
                    rw [ih]

/-- C4 counterexample: a question paper entry with no marks key is assembled
with marks 5, not 10. -/
theorem C4_counterexample :
    (prepare_grading_data [{ question_number := some "1", question := some "q", marks := none }]
        [] [] "").map GradingRequest.marks = [(5 : ℚ)] ∧ (5 : ℚ) ≠ 10 := by
  constructor
  · rfl
  · norm_num

/-- C4 amended: for every question whose marks field is absent (and whose
question number is present and nonempty, so the question is assembled at
all), the assembled grading request's marks field takes the fixed fallback
value 5. -/
theorem C4_marks_fallback_is_five (gsl ans : List (String × String)) (notes : String)
    (q : RawQuestion) (hm : q.marks = none) (hq : q.question_number.getD "" ≠ "") :
    (prepare_question gsl ans notes q).map GradingRequest.marks = some 5 := by
  simp [prepare_question, hq, hm]

/-- Witness for C4 amended at a concrete question with absent marks. -/
theorem C4_amended_witness :
    (prepare_question [] [] "" { question_number := some "1", question := some "q", marks := none }).map
      GradingRequest.marks = some 5 :=
  C4_marks_fallback_is_five [] [] "" _ rfl (by decide)

/-- C5: for a question paper made of QuestionSpecs (each question number
present and nonempty, as the spec's data model defines a QuestionSpec label),
assembly and grading are 1:1:1 — one request per question, one result per
request, and the result at each index is obtained from the request at the
same index. -/
theorem C5_one_to_one (qp : List RawQuestion) (gs : List RawSchemeEntry)
    (ans : List (String × String)) (notes : String)
    (f : GradingRequest → Except String GradeResponse)
    (h : ∀ q ∈ qp, q.question_number.getD "" ≠ "") :
    (prepare_grading_data qp gs ans notes).length = qp.length ∧
    (grading_results f (prepare_grading_data qp gs ans notes)).length =
      (prepare_grading_data qp gs ans notes).length ∧
    ∀ i : ℕ, (grading_results f (prepare_grading_data qp gs ans notes))[i]? =
      ((prepare_grading_data qp gs ans notes)[i]?).map (grade_step f) := by
  refine ⟨prepare_grading_data_length qp gs ans notes h, List.length_map _ _, fun i => ?_⟩
  simp [grading_results]

/-- Witness for C5 on a one-question paper and an always-failing evaluator. -/
theorem C5_witness :
    (prepare_grading_data [{ question_number := some "1", question := some "q", marks := some 3 }]
        [] [] "").length = 1 ∧
    (grading_results (fun _ => Except.error "boom")
        (prepare_grading_data [{ question_number := some "1", question := some "q", marks := some 3 }]
          [] [] "")).length =
      (prepare_grading_data [{ question_number := some "1", question := some "q", marks := some 3 }]
        [] [] "").length :=
  ⟨(C5_one_to_one [{ question_number := some "1", question := some "q", marks := some 3 }]
      [] [] "" (fun _ => Except.error "boom") (by decide)).1,
   (C5_one_to_one [{ question_number := some "1", question := some "q", marks := some 3 }]
      [] [] "" (fun _ => Except.error "boom") (by decide)).2.1⟩

/-- C6: a question (with its number present and nonempty) whose label matches
no grading-scheme entry and no merged answer is still assembled — with empty
scheme text and empty student answer — rather than skipped or failing. -/
theorem C6_missing_lookups_default_empty (gs : List RawSchemeEntry)
    (ans : List (String × String)) (notes : String) (q : RawQuestion)
    (hq : q.question_number.getD "" ≠ "")
    (hs : getA ans (q.question_number.getD "") = none)
    (hg : getA (gs_lookup gs) (q.question_number.getD "") = none) :
    prepare_question (gs_lookup gs) ans notes q = some
      { question_num := q.question_number.getD ""
        question := q.question.getD ""
        marks := q.marks.getD 5
        student_answer := ""
        grading_scheme := ""
        relevant_lecture_text := ""
        professor_prompt := notes } := by
  simp [prepare_question, hq, hs, hg]

/-- Witness for C6 at a concrete question with empty rubric and answers. -/
theorem C6_witness :
    prepare_question (gs_lookup []) [] "n"
        { question_number := some "7", question := some "qq", marks := some 4 } = some
      { question_num := "7", question := "qq", marks := 4, student_answer := "",
        grading_scheme := "", relevant_lecture_text := "", professor_prompt := "n" } :=
  C6_missing_lookups_default_empty [] [] "n" _ (by decide) rfl rfl

/-- C1 counterexample: when the evaluator returns an unparsable payload, the
collected result for that request carries only the parse-failure error and
raw response — its `marks_awarded` and `explanation` keys are absent
(`none`), not `marks_awarded = 0` with an explanatory placeholder as the
claim states. -/
theorem C1_counterexample :
    (grading_results (fun _ => Except.ok (grade_answer_result none "not json"))
        [{ question_num := "1", question := "", marks := 5, student_answer := "",
           grading_scheme := "", relevant_lecture_text := "", professor_prompt := "" }]).map
        (fun r => (r.marks_awarded, r.explanation, r.error)) =
      [((none : Option ℚ), (none : Option String), some "Failed to parse grading results")] ∧
    (none : Option ℚ) ≠ some 0 :=
  ⟨rfl, by decide⟩

/-- C1 amended: the batch always yields one result per request, each result
is computed from its own request alone (so a failure never aborts or touches
sibling results); a *raising* evaluation is substituted by a result with
`marks_awarded = 0`, the placeholder explanation "Error during grading" and
`error` set to the failure description, while an *unparsable payload* yields
a result whose `error` is "Failed to parse grading results" with the raw
response kept, and whose `marks_awarded`/`explanation` keys are absent —
reading as 0 only through the downstream `get`-with-default. -/
theorem C1_failure_isolation (f : GradingRequest → Except String GradeResponse)
    (requests : List GradingRequest) :
    (grading_results f requests).length = requests.length ∧
    (∀ i : ℕ, (grading_results f requests)[i]? = (requests[i]?).map (grade_step f)) ∧
    (∀ q msg, f q = Except.error msg →
      grade_step f q =
        { question_num := q.question_num, question := q.question, marks := q.marks,
          student_answer := q.student_answer, grading_scheme := q.grading_scheme,
          relevant_lecture_text := q.relevant_lecture_text,
          professor_prompt := q.professor_prompt, marks_awarded := some 0,
          explanation := some "Error during grading", error := some msg,
          raw_response := none }) ∧
    (∀ q raw, f q = Except.ok (grade_answer_result none raw) →
      (grade_step f q).error = some "Failed to parse grading results" ∧
      (grade_step f q).marks_awarded = none ∧
      (grade_step f q).explanation = none ∧
      (grade_step f q).raw_response = some raw ∧
      (grade_step f q).marks_awarded.getD 0 = 0) := by
  refine ⟨List.length_map _ _, fun i => by simp [grading_results], ?_, ?_⟩
  · intro q msg hq
    simp [grade_step, hq]
  · intro q raw hq
    simp [grade_step, hq, grade_answer_result, display_data]

/-- Witness for C1 amended: the substituted record for a raising evaluator. -/
theorem C1_witness :
    grade_step (fun _ => Except.error "boom")
        { question_num := "1", question := "", marks := 5, student_answer := "",
          grading_scheme := "", relevant_lecture_text := "", professor_prompt := "" } =
      { question_num := "1", question := "", marks := 5, student_answer := "",
        grading_scheme := "", relevant_lecture_text := "", professor_prompt := "",
        marks_awarded := some 0, explanation := some "Error during grading",
        error := some "boom", raw_response := none } :=
  (C1_failure_isolation (fun _ => Except.error "boom") []).2.2.1
    { question_num := "1", question := "", marks := 5, student_answer := "",
      grading_scheme := "", relevant_lecture_text := "", professor_prompt := "" }
    "boom" rfl

/-- C8: over a question paper of QuestionSpecs (question numbers present and
nonempty), the displayed total satisfies: awarded is the sum of the results'
`marks_awarded` (absent read as 0), possible is the sum of the questions'
marks (with the absent-marks fallback), and the percentage is
awarded/possible*100 when possible is positive and 0 when possible is zero —
with no division-by-zero failure, the expression being total. -/
theorem C8_aggregate (qp : List RawQuestion) (gs : List RawSchemeEntry)
    (ans : List (String × String)) (notes : String)
    (f : GradingRequest → Except String GradeResponse)
    (h : ∀ q ∈ qp, q.question_number.getD "" ≠ "") :
    total_marks_awarded (grading_results f (prepare_grading_data qp gs ans notes)) =
      ((grading_results f (prepare_grading_data qp gs ans notes)).map
        (fun r => r.marks_awarded.getD 0)).sum ∧
    total_possible_marks (grading_results f (prepare_grading_data qp gs ans notes)) =
      (qp.map (fun q => q.marks.getD 5)).sum ∧
    (0 < total_possible_marks (grading_results f (prepare_grading_data qp gs ans notes)) →
      percentage (grading_results f (prepare_grading_data qp gs ans notes)) =
        total_marks_awarded (grading_results f (prepare_grading_data qp gs ans notes)) /
          total_possible_marks (grading_results f (prepare_grading_data qp gs ans notes)) * 100) ∧
    (total_possible_marks (grading_results f (prepare_grading_data qp gs ans notes)) = 0 →
      percentage (grading_results f (prepare_grading_data qp gs ans notes)) = 0) := by
  refine ⟨rfl, ?_, ?_, ?_⟩
  · rw [total_possible_marks_grading, prepare_grading_data_marks gs ans notes qp h]
  · intro hp
    unfold percentage
    rw [if_pos (ne_of_gt hp)]
  · intro hp
    unfold percentage
    rw [if_neg (by simp [hp])]

/-- Witness for C8 on a one-question paper with marks 3 and a failing
evaluator. -/
theorem C8_witness :
    total_possible_marks (grading_results (fun _ => Except.error "boom")
        (prepare_grading_data [{ question_number := some "1", question := some "q", marks := some 3 }]
          [] [] "")) =
      ([({ question_number := some "1", question := some "q",
           marks := some (3 : ℚ) } : RawQuestion)].map (fun q => q.marks.getD 5)).sum :=
  (C8_aggregate [{ question_number := some "1", question := some "q", marks := some 3 }]
      [] [] "" (fun _ => Except.error "boom") (by decide)).2.1

/-- An evaluator that always succeeds and echoes the request's own marks as
the awarded marks. -/
def fullMarksEvaluator : GradingRequest → Except String GradeResponse :=
  fun r => Except.ok
    { question_num := some r.question_num, marks_awarded := some r.marks,
      explanation := some "ok" }

/-- C9 counterexample: a session whose single question carries 0 marks, with
an evaluator that succeeds on every call and returns `marks_awarded` equal to
the request's marks, aggregates to percentage 0, not 100. -/
theorem C9_counterexample :
    ((prepare_grading_data [{ question_number := some "1", question := some "q", marks := some 0 }]
        [] [] "").map GradingRequest.marks = [(0 : ℚ)]) ∧
    ((prepare_grading_data [{ question_number := some "1", question := some "q", marks := some 0 }]
        [] [] "").map fullMarksEvaluator =
      [Except.ok { question_num := some "1", marks_awarded := some 0, explanation := some "ok",
                   error := none, raw_response := none }]) ∧
    percentage (grading_results fullMarksEvaluator
        (prepare_grading_data [{ question_number := some "1", question := some "q", marks := some 0 }]
          [] [] "")) = 0 ∧
    (0 : ℚ) ≠ 100 := by
  refine ⟨rfl, rfl, ?_, by norm_num⟩
  unfold percentage
  rw [if_neg (by simp [total_possible_marks, grading_results, prepare_grading_data,
    prepare_question, gs_lookup, grade_step, fullMarksEvaluator, display_data])]

/-- Summing the results' awarded marks under a full-marks evaluator equals
summing the requests' own marks. -/
theorem total_awarded_full_marks (f : GradingRequest → Except String GradeResponse)
    (hf : ∀ r, ∃ resp, f r = Except.ok resp ∧ resp.marks_awarded = some r.marks)
    (reqs : List GradingRequest) :
    total_marks_awarded (grading_results f reqs) = (reqs.map GradingRequest.marks).sum := by
  unfold total_marks_awarded grading_results
  induction reqs with
  | nil => rfl
  | cons q qs ih =>
    obtain ⟨resp, hq, hm⟩ := hf q
    simp only [List.map_cons, List.map_map, List.sum_cons] at ih ⊢
    rw [ih]
    have : (grade_step f q).marks_awarded = some q.marks := by
      simp [grade_step, hq, display_data, hm]
    simp [Function.comp, this]

/-- C9 amended: assembling then aggregating a session where every evaluator
call succeeds with `marks_awarded` equal to the request's marks yields
percentage 100, provided the total possible marks of the session is nonzero
(a session whose possible total is 0 displays percentage 0 instead). -/
theorem C9_full_marks_percentage (qp : List RawQuestion) (gs : List RawSchemeEntry)
    (ans : List (String × String)) (notes : String)
    (f : GradingRequest → Except String GradeResponse)
    (hf : ∀ r, ∃ resp, f r = Except.ok resp ∧ resp.marks_awarded = some r.marks)
    (hp : total_possible_marks
        (grading_results f (prepare_grading_data qp gs ans notes)) ≠ 0) :
    percentage (grading_results f (prepare_grading_data qp gs ans notes)) = 100 := by
  have hsum : ((prepare_grading_data qp gs ans notes).map GradingRequest.marks).sum ≠ 0 := by
    rw [← total_possible_marks_grading f]
    exact hp
  unfold percentage
  rw [if_pos hp, total_awarded_full_marks f hf, total_possible_marks_grading f,
    div_self hsum, one_mul]

/-- Witness for C9 amended on a one-question paper with marks 5 and the
full-marks evaluator. -/
theorem C9_witness :
    percentage (grading_results fullMarksEvaluator
        (prepare_grading_data [{ question_number := some "1", question := some "q", marks := some 5 }]
          [] [] "")) = 100 :=
  C9_full_marks_percentage
    [{ question_number := some "1", question := some "q", marks := some 5 }] [] [] ""
    fullMarksEvaluator (fun r => ⟨_, rfl, rfl⟩)
    (by simp [total_possible_marks, grading_results, prepare_grading_data, prepare_question,
      gs_lookup, grade_step, fullMarksEvaluator, display_data])

end StartupAid
